import Mathlib

/-!
Shallow embedding of the reference-counting core of `libhal/strong_ptr`
(`include/strong_ptr/pointers.hpp`, namespace `hal::v5`).

Modelling conventions:
* A control block (`detail::ref_info`) is a record; the two `std::atomic<i32>`
  counters are modelled as `Int` (counter overflow at 2^31 plays no role in any
  claim, while signedness matters: `fetch_sub` can drive a counter negative).
* Heap memory is a `World`: a total map from block addresses (`Nat`) to control
  blocks.  The embedding is sequential, so every atomic read-modify-write is an
  ordinary update and a `compare_exchange_weak` succeeds at the observed value.
* Side effects needed by the claims are logged inside the block itself:
  `destroyed` counts runs of the managed object's destructor (`destroy(ptr)`),
  and `deallocs` records every `deallocate_bytes` call as an
  (allocator handle, byte size) pair.  `rcSize` is the constant `sizeof(rc<T>)`
  that the type-erased `destroy` function returns.
* `strong_ptr<T>` stores a control-block pointer and an object pointer; the
  class deletes its default and `nullptr` constructors, so both fields are
  modelled as plain `Nat` addresses (never null).  `weak_ptr<T>` may legally be
  empty, so its fields are `Option Nat` (with `none` as the null pointer).
  `optional_ptr<T>` reuses a `strong_ptr`'s two-word footprint through a union;
  it is modelled as the two raw words, each an `Option Nat`, with engagement
  defined exactly as in the source: some raw word is non-null.
* Object addresses are abstract: the element `i` of an array member whose
  first element sits at address `base` lives at `base + i` (the constant
  element-size scale factor is irrelevant to every claim).
-/

namespace StrongPtrModel

/-- `detail::ref_info`, the type-erased control block, plus effect logs. -/
structure ref_info where
  /-- the stored `std::pmr::polymorphic_allocator<>` handle -/
  allocator : Nat
  /-- `std::atomic<i32> strong_count` (initialised to 1 at creation) -/
  strong_count : Int
  /-- `std::atomic<i32> weak_count` (initialised to 0 at creation) -/
  weak_count : Int
  /-- how many times the managed object's destructor has run (`destroy(ptr)`) -/
  destroyed : Nat
  /-- every `deallocate_bytes` call performed on this block: (allocator, size) -/
  deallocs : List (Nat × Nat)
  /-- `sizeof(rc<T>)`, the size the `destroy` function always returns -/
  rcSize : Nat
deriving DecidableEq, Repr

/-- The heap: a total map from control-block addresses to control blocks. -/
def World : Type := Nat → ref_info

/-- Point update of one control block. -/
def updateBlock (w : World) (i : Nat) (f : ref_info → ref_info) : World :=
  fun j => if j = i then f (w j) else w j

theorem updateBlock_same (w : World) (i : Nat) (f : ref_info → ref_info) :
    updateBlock w i f i = f (w i) := by
  simp [updateBlock]

theorem updateBlock_ne (w : World) (i j : Nat) (f : ref_info → ref_info)
    (h : j ≠ i) : updateBlock w i f j = w j := by
  simp [updateBlock, h]

theorem updateBlock_updateBlock (w : World) (i : Nat)
    (f g : ref_info → ref_info) :
    updateBlock (updateBlock w i f) i g = updateBlock w i (fun b => g (f b)) := by
  funext j
  by_cases h : j = i <;> simp [updateBlock, h]

theorem updateBlock_id (w : World) (i : Nat) (f : ref_info → ref_info)
    (h : f (w i) = w i) : updateBlock w i f = w := by
  funext j
  by_cases hj : j = i <;> simp [updateBlock, hj, h]

/-- Effect of `detail::ptr_add_ref` on its control block:
`strong_count.fetch_add(1, relaxed)`. -/
def addStrong (b : ref_info) : ref_info :=
  { b with strong_count := b.strong_count + 1 }

/-- Effect of `detail::ptr_add_weak` on its control block:
`weak_count.fetch_add(1, relaxed)`. -/
def addWeak (b : ref_info) : ref_info :=
  { b with weak_count := b.weak_count + 1 }

/-- Effect of `detail::ptr_release` on its control block: decrement
`strong_count`; if the pre-decrement value was 1, run `destroy(p_info)`
(destructor plus size report), then deallocate with the stored allocator when
`weak_count` is 0. -/
def releaseStrong (b : ref_info) : ref_info :=
  let prev := b.strong_count
  let b1 := { b with strong_count := b.strong_count - 1 }
  if prev = 1 then
    -- destroy(p_info): runs the object's destructor and returns sizeof(rc<T>)
    let b2 := { b1 with destroyed := b1.destroyed + 1 }
    let object_size := b2.rcSize
    if b2.weak_count = 0 then
      { b2 with deallocs := (b2.allocator, object_size) :: b2.deallocs }
    else b2
  else b1

/-- Effect of `detail::ptr_release_weak` on its control block: decrement
`weak_count`; the source then tests the PRE-decrement value against 0
(`fetch_sub(1, acq_rel) == 0`) and only in that case, when `strong_count` is
also 0, deallocates using the size reported by `destroy(nullptr)`. -/
def releaseWeak (b : ref_info) : ref_info :=
  let prev := b.weak_count
  let b1 := { b with weak_count := b.weak_count - 1 }
  if prev = 0 then
    if b1.strong_count = 0 then
      -- destroy(nullptr): reports the size without running the destructor
      let object_size := b1.rcSize
      { b1 with deallocs := (b1.allocator, object_size) :: b1.deallocs }
    else b1
  else b1

/-- `detail::ptr_add_ref(p_info)` on the heap. -/
def ptr_add_ref (i : Nat) (w : World) : World :=
  updateBlock w i addStrong

/-- `detail::ptr_add_weak(p_info)` on the heap. -/
def ptr_add_weak (i : Nat) (w : World) : World :=
  updateBlock w i addWeak

/-- `detail::ptr_release(p_info)` on the heap. -/
def ptr_release (i : Nat) (w : World) : World :=
  updateBlock w i releaseStrong

/-- `detail::ptr_release_weak(p_info)` on the heap. -/
def ptr_release_weak (i : Nat) (w : World) : World :=
  updateBlock w i releaseWeak

/-- `strong_ptr<T>`: a control-block address and an object address.  The class
deletes its default and `nullptr` constructors, so both fields are non-null. -/
structure StrongPtr where
  ctrl : Nat
  addr : Nat
deriving DecidableEq, Repr

/-- `strong_ptr<T>::use_count()`: reads `strong_count` (the `m_ctrl` null test
in the source is vacuous for `strong_ptr`, whose control block is never null). -/
def use_count (s : StrongPtr) (w : World) : Int :=
  (w s.ctrl).strong_count

/-- `weak_ptr<T>`: the same pair, but legitimately nullable (`none` = null). -/
structure WeakPtr where
  ctrl : Option Nat
  addr : Option Nat
deriving DecidableEq, Repr

/-- `weak_ptr<T>::use_count()`: `m_ctrl ? strong_count.load(relaxed) : 0`. -/
def weak_use_count (wk : WeakPtr) (w : World) : Int :=
  match wk.ctrl with
  | none => 0
  | some i => (w i).strong_count

/-- `weak_ptr<T>::expired()`:
`!m_ctrl || m_ctrl->strong_count.load(relaxed) == 0`. -/
def expired (wk : WeakPtr) (w : World) : Bool :=
  match wk.ctrl with
  | none => true
  | some i => decide ((w i).strong_count = 0)

/-- `strong_ptr<T>` copy constructor: copy both fields, `ptr_add_ref(m_ctrl)`.
Returns (the new pointer, the source afterwards, the heap afterwards). -/
def strong_copy_ctor (src : StrongPtr) (w : World) :
    StrongPtr × StrongPtr × World :=
  (⟨src.ctrl, src.addr⟩, src, ptr_add_ref src.ctrl w)

/-- `strong_ptr<T>` move constructor: the source is deliberately copied, not
transferred — same body as the copy constructor, the source is left intact. -/
def strong_move_ctor (src : StrongPtr) (w : World) :
    StrongPtr × StrongPtr × World :=
  (⟨src.ctrl, src.addr⟩, src, ptr_add_ref src.ctrl w)

/-- `strong_ptr<T>` copy assignment (between distinct objects): `release()` the
old reference, copy the fields, `ptr_add_ref` the new control block.
Returns (the assigned-to pointer, the source afterwards, the heap afterwards). -/
def strong_copy_assign (this other : StrongPtr) (w : World) :
    StrongPtr × StrongPtr × World :=
  let w1 := ptr_release this.ctrl w
  (⟨other.ctrl, other.addr⟩, other, ptr_add_ref other.ctrl w1)

/-- `strong_ptr<T>` move assignment (between distinct objects): deliberately
identical to copy assignment — the source is left intact. -/
def strong_move_assign (this other : StrongPtr) (w : World) :
    StrongPtr × StrongPtr × World :=
  let w1 := ptr_release this.ctrl w
  (⟨other.ctrl, other.addr⟩, other, ptr_add_ref other.ctrl w1)

/-- `hal::out_of_range` payload: `{ m_index, m_capacity }`. -/
structure out_of_range where
  m_index : Nat
  m_capacity : Nat
deriving DecidableEq, Repr

/-- `strong_ptr<T>::throw_if_out_of_bounds(p_size, p_index)`. -/
def throw_if_out_of_bounds (p_size p_index : Nat) : Except out_of_range Unit :=
  if p_index ≥ p_size then
    .error ⟨p_index, p_size⟩
  else
    .ok ()

/-- The `std::array` aliasing constructor of `strong_ptr<T>`:
bounds-check first (`throw_if_out_of_bounds(N, p_index)`), and only on success
copy the parent's control block, take the address of element `p_index` of the
array member (first element at `arrayBase`), and `ptr_add_ref`.  On error the
heap is returned untouched: the throw happens before any counter mutation. -/
def strong_alias_array (parent : StrongPtr) (arrayBase N p_index : Nat)
    (w : World) : Except out_of_range StrongPtr × World :=
  match throw_if_out_of_bounds N p_index with
  | .error e => (.error e, w)
  | .ok _ => (.ok ⟨parent.ctrl, arrayBase + p_index⟩, ptr_add_ref parent.ctrl w)

/-- `weak_ptr<T>` constructor from a `strong_ptr<T>`: copy the (non-null)
fields and `ptr_add_weak(m_ctrl)`. -/
def weak_from_strong (s : StrongPtr) (w : World) : WeakPtr × World :=
  (⟨some s.ctrl, some s.addr⟩, ptr_add_weak s.ctrl w)

/-- `weak_ptr<T>` destructor: `if (m_ctrl) ptr_release_weak(m_ctrl)`. -/
def weak_dtor (wk : WeakPtr) (w : World) : World :=
  match wk.ctrl with
  | none => w
  | some i => ptr_release_weak i w

/-- `weak_ptr<T>` move constructor: steal both fields and null the source; no
counter is touched.  Returns (the new pointer, the source afterwards, heap). -/
def weak_move_ctor (src : WeakPtr) (w : World) : WeakPtr × WeakPtr × World :=
  (⟨src.ctrl, src.addr⟩, ⟨none, none⟩, w)

/-- `weak_ptr<T>` move assignment (between distinct objects):
`weak_ptr(std::move(p_other)).swap(*this)` — a temporary steals `other`'s
fields (nulling `other`), swaps with `*this`, and the temporary's destructor
releases `*this`'s old reference.  Returns (new `*this`, `other` after, heap). -/
def weak_move_assign (this other : WeakPtr) (w : World) :
    WeakPtr × WeakPtr × World :=
  (⟨other.ctrl, other.addr⟩, ⟨none, none⟩, weak_dtor this w)

/-- `weak_ptr<T>::lock()`: return a disengaged pointer when `expired()`;
otherwise load `strong_count` and run the compare-and-retry loop.  In this
sequential embedding the `compare_exchange_weak` succeeds at the observed
value, so the loop succeeds exactly when the observed count is positive. -/
def lock (wk : WeakPtr) (w : World) : Option StrongPtr × World :=
  if expired wk w then
    (none, w)
  else
    match wk.ctrl with
    | none => (none, w)  -- unreachable: expired() is true without a control block
    | some i =>
      let current := (w i).strong_count
      if 0 < current then
        (some ⟨i, wk.addr.getD 0⟩, ptr_add_ref i w)
      else
        (none, w)

/-- `optional_ptr<T>`: the two raw words of the union
`{ std::array<void*, 2> m_raw_ptrs; strong_ptr<T> m_value; }`.
`none` is the null word; the disengaged state is both words null. -/
structure OptionalPtr where
  raw_ctrl : Option Nat
  raw_addr : Option Nat
deriving DecidableEq, Repr

/-- `optional_ptr<T>::is_engaged()`:
`m_raw_ptrs[0] != nullptr || m_raw_ptrs[1] != nullptr`. -/
def is_engaged (o : OptionalPtr) : Bool :=
  o.raw_ctrl.isSome || o.raw_addr.isSome

/-- `optional_ptr<T>::has_value()`: returns `is_engaged()`. -/
def has_value (o : OptionalPtr) : Bool :=
  is_engaged o

/-- The `strong_ptr` member `m_value` read out of an engaged `optional_ptr`
(both words of an engaged, API-reachable optional are non-null). -/
def contained (o : OptionalPtr) : StrongPtr :=
  ⟨o.raw_ctrl.getD 0, o.raw_addr.getD 0⟩

/-- `hal::bad_optional_ptr_access` (its payload, a source pointer, carries no
information relevant here). -/
structure bad_optional_ptr_access where
deriving DecidableEq, Repr

/-- `optional_ptr<T>::value()`: throw `bad_optional_ptr_access` when not
engaged, otherwise hand out `m_value`.  The heap is threaded to record that no
reference count is touched on either path. -/
def optional_value (o : OptionalPtr) (w : World) :
    Except bad_optional_ptr_access StrongPtr × World :=
  if is_engaged o then
    (.ok (contained o), w)
  else
    (.error ⟨⟩, w)

/-- `optional_ptr<T>::operator->()`: `&*(this->value())`, i.e. `value()`'s
object address; the failed access propagates before any dereference. -/
def optional_arrow (o : OptionalPtr) (w : World) :
    Except bad_optional_ptr_access Nat × World :=
  match optional_value o w with
  | (.error e, w1) => (.error e, w1)
  | (.ok s, w1) => (.ok s.addr, w1)

/-- `optional_ptr<T>::operator*()`: the reference `*(this->value())`,
identified with the object address it refers to. -/
def optional_star (o : OptionalPtr) (w : World) :
    Except bad_optional_ptr_access Nat × World :=
  match optional_value o w with
  | (.error e, w1) => (.error e, w1)
  | (.ok s, w1) => (.ok s.addr, w1)

/-- `optional_ptr<T>::reset()`: destroy `m_value` when engaged (releasing its
strong reference) and zero both raw words.  Returns (the optional after, heap
after). -/
def optional_reset (o : OptionalPtr) (w : World) : OptionalPtr × World :=
  if is_engaged o then
    (⟨none, none⟩, ptr_release (contained o).ctrl w)
  else
    (o, w)

/-- `optional_ptr<T>::swap(other)` for distinct objects, following the source
case split on engagement.  Both engaged: `std::swap(m_value, other.m_value)`,
which move-constructs a temporary from `m_value` (a reference add on our
block), move-assigns `other.m_value` into `m_value` (release ours, add
other's), move-assigns the temporary into `other.m_value` (release other's,
add ours) and destroys the temporary (release ours).  One engaged: placement
move-construction into the empty side (a reference add) followed by `reset()`
on the vacated side (a release).  Returns (`*this` after, `other` after, heap
after). -/
def optional_swap (a b : OptionalPtr) (w : World) :
    OptionalPtr × OptionalPtr × World :=
  if is_engaged a && is_engaged b then
    let va := contained a
    let vb := contained b
    let w1 := ptr_add_ref va.ctrl w                         -- tmp = move(m_value)
    let w2 := ptr_add_ref vb.ctrl (ptr_release va.ctrl w1)  -- m_value = move(other.m_value)
    let w3 := ptr_add_ref va.ctrl (ptr_release vb.ctrl w2)  -- other.m_value = move(tmp)
    let w4 := ptr_release va.ctrl w3                        -- ~tmp
    (b, a, w4)
  else if is_engaged a && !is_engaged b then
    let va := contained a
    let w1 := ptr_add_ref va.ctrl w   -- new (&other.m_value) strong_ptr(std::move(m_value))
    let w2 := ptr_release va.ctrl w1  -- reset()
    (⟨none, none⟩, a, w2)
  else if !is_engaged a && is_engaged b then
    let vb := contained b
    let w1 := ptr_add_ref vb.ctrl w
    let w2 := ptr_release vb.ctrl w1
    (b, ⟨none, none⟩, w2)
  else
    (a, b, w)

/-- `operator==(optional_ptr, optional_ptr)`: both disengaged → equal; one
engaged → unequal; both engaged → compare `value().operator->()`, i.e. the
raw object-pointer words. -/
def optional_eq (a b : OptionalPtr) : Bool :=
  if !has_value a && !has_value b then
    true
  else if has_value a != has_value b then
    false
  else
    decide (a.raw_addr = b.raw_addr)

/-- `operator!=(optional_ptr, optional_ptr)`: `!(lhs == rhs)`. -/
def optional_ne (a b : OptionalPtr) : Bool :=
  !(optional_eq a b)

/-- `operator==(optional_ptr, nullptr_t)`: `!lhs.has_value()`. -/
def optional_eq_null (a : OptionalPtr) : Bool :=
  !(has_value a)

/-- `operator==(nullptr_t, optional_ptr)`: `!rhs.has_value()`. -/
def null_eq_optional (b : OptionalPtr) : Bool :=
  !(has_value b)

/-- `operator!=(optional_ptr, nullptr_t)`: `lhs.has_value()`. -/
def optional_ne_null (a : OptionalPtr) : Bool :=
  has_value a

/-- `operator!=(nullptr_t, optional_ptr)`: `rhs.has_value()`. -/
def null_ne_optional (b : OptionalPtr) : Bool :=
  has_value b

/-! ## Helper lemmas on the counter protocol -/

theorem releaseStrong_addStrong (b : ref_info) (h : b.strong_count ≠ 0) :
    releaseStrong (addStrong b) = b := by
  obtain ⟨al, sc, wc, de, dl, rs⟩ := b
  have h1 : sc + 1 ≠ 1 := by simpa using h
  simp [releaseStrong, addStrong, h1]

theorem release_add_cancel (i : Nat) (w : World)
    (h : (w i).strong_count ≠ 0) :
    ptr_release i (ptr_add_ref i w) = w := by
  unfold ptr_release ptr_add_ref
  rw [updateBlock_updateBlock]
  exact updateBlock_id w i _ (releaseStrong_addStrong (w i) h)

theorem disengaged_eq (o : OptionalPtr) (h : is_engaged o = false) :
    o = ⟨none, none⟩ := by
  obtain ⟨c, d⟩ := o
  cases c <;> cases d <;> simp_all [is_engaged]

/-! ## Claim theorems -/

/-- A concrete heap: one control block whose managed object has already been
destroyed (`strong_count = 0`) while exactly one weak reference is still live
(`weak_count = 1`). -/
def lastWeakWorld : World := fun _ =>
  { allocator := 7, strong_count := 0, weak_count := 1,
    destroyed := 1, deallocs := [], rcSize := 24 }

/-- Claim C1, code evaluated at the failing input: with `strong_count = 0` and
a single remaining weak reference (`weak_count = 1`), `ptr_release_weak`
decrements the weak count to 0 but performs NO deallocation.  The source
compares the pre-decrement `weak_count` (here 1) against 0, so the deallocate
branch is skipped and the backing memory leaks — contrary to the claim and to
the function's own documentation. -/
theorem ptr_release_weak_last_weak_leaks :
    ((ptr_release_weak 0 lastWeakWorld) 0).weak_count = 0 ∧
    ((ptr_release_weak 0 lastWeakWorld) 0).strong_count = 0 ∧
    ((ptr_release_weak 0 lastWeakWorld) 0).deallocs = [] := by
  decide

/-- Claim C2: `ptr_release` decrements `strong_count` by one; exactly when the
pre-decrement value was 1 it runs the managed object's destructor once;
immediately afterwards it deallocates — logging one `deallocate_bytes` call
with the stored allocator and the size reported by `destroy` — precisely when
`weak_count` is zero, and otherwise leaves the memory live for weak holders. -/
theorem ptr_release_spec (i : Nat) (w : World) :
    ((ptr_release i w) i).strong_count = (w i).strong_count - 1 ∧
    ((ptr_release i w) i).destroyed =
      (w i).destroyed + (if (w i).strong_count = 1 then 1 else 0) ∧
    ((ptr_release i w) i).deallocs =
      (if (w i).strong_count = 1 ∧ (w i).weak_count = 0 then
        ((w i).allocator, (w i).rcSize) :: (w i).deallocs
      else (w i).deallocs) ∧
    ((ptr_release i w) i).weak_count = (w i).weak_count := by
  unfold ptr_release
  rw [updateBlock_same]
  by_cases h1 : (w i).strong_count = 1
  · by_cases h2 : (w i).weak_count = 0 <;> simp [releaseStrong, h1, h2]
  · simp [releaseStrong, h1]

/-- A concrete heap whose (single, replicated) control block is live:
two strong owners and one weak reference. -/
def lockWorld : World := fun _ =>
  { allocator := 3, strong_count := 2, weak_count := 1,
    destroyed := 0, deallocs := [], rcSize := 16 }

/-- Claim C3: `lock()` on a weak_ptr with a control block whose observed
`strong_count` is some `v > 0` succeeds: it returns an engaged pointer sharing
the control block (and the stored object address) and raises that block's
`strong_count` to `v + 1`, touching no weak count and no other block.  With no
control block, or with an observed count of zero or below, it returns a
disengaged pointer and leaves the heap untouched — in particular a
`strong_count` of 0 is never incremented. -/
theorem weak_lock_spec (wk : WeakPtr) (w : World) :
    (∀ i, wk.ctrl = some i → 0 < (w i).strong_count →
      (lock wk w).fst = some ⟨i, wk.addr.getD 0⟩ ∧
      ((lock wk w).snd i).strong_count = (w i).strong_count + 1 ∧
      ((lock wk w).snd i).weak_count = (w i).weak_count ∧
      (∀ j, j ≠ i → (lock wk w).snd j = w j)) ∧
    (wk.ctrl = none → lock wk w = (none, w)) ∧
    (∀ i, wk.ctrl = some i → (w i).strong_count ≤ 0 →
      lock wk w = (none, w)) := by
  refine ⟨?_, ?_, ?_⟩
  · intro i hc hpos
    have hne : ¬((w i).strong_count = 0) := by omega
    refine ⟨?_, ?_, ?_, ?_⟩ <;>
      simp [lock, expired, hc, hne, hpos, ptr_add_ref, updateBlock_same,
        addStrong]
    intro j hj
    rw [updateBlock_ne w i j _ hj]
  · intro hc
    simp [lock, expired, hc]
  · intro i hc hle
    by_cases h0 : (w i).strong_count = 0
    · simp [lock, expired, hc, h0]
    · have hnlt : ¬(0 < (w i).strong_count) := by omega
      simp [lock, expired, hc, h0, hnlt]

/-- Witness for the C3 theorem at a concrete heap: a successful upgrade from
count 2 to 3 and a failing lock of an empty weak_ptr. -/
theorem weak_lock_spec_witness :
    (lock ⟨some 0, some 3⟩ lockWorld).fst = some ⟨0, 3⟩ ∧
    ((lock ⟨some 0, some 3⟩ lockWorld).snd 0).strong_count
      = (lockWorld 0).strong_count + 1 ∧
    (lock ⟨some 0, some 3⟩ lockWorld).snd 5 = lockWorld 5 ∧
    lock ⟨none, none⟩ lockWorld = (none, lockWorld) := by
  have h := (weak_lock_spec ⟨some 0, some 3⟩ lockWorld).1 0 rfl (by decide)
  exact ⟨h.1, h.2.1, h.2.2.2 5 (by decide),
    (weak_lock_spec ⟨none, none⟩ lockWorld).2.1 rfl⟩

/-- Claim C4: the array-member aliasing constructor bounds-checks before
touching any counter.  For `i < N` it yields a pointer that shares the
parent's control block and points at element `i`, with the shared
`use_count()` raised by one (weak count and every other block untouched); for
`i ≥ N` it raises `out_of_range` carrying the attempted index and the
capacity, and returns the heap exactly as given — no counter mutates. -/
theorem strong_alias_array_spec (parent : StrongPtr) (arrayBase N i : Nat)
    (w : World) :
    (i < N →
      (strong_alias_array parent arrayBase N i w).fst
        = .ok ⟨parent.ctrl, arrayBase + i⟩ ∧
      use_count ⟨parent.ctrl, arrayBase + i⟩
          ((strong_alias_array parent arrayBase N i w).snd)
        = use_count parent ((strong_alias_array parent arrayBase N i w).snd) ∧
      use_count parent ((strong_alias_array parent arrayBase N i w).snd)
        = use_count parent w + 1 ∧
      ((strong_alias_array parent arrayBase N i w).snd parent.ctrl).weak_count
        = (w parent.ctrl).weak_count ∧
      (∀ j, j ≠ parent.ctrl →
        (strong_alias_array parent arrayBase N i w).snd j = w j)) ∧
    (N ≤ i →
      strong_alias_array parent arrayBase N i w = (.error ⟨i, N⟩, w)) := by
  constructor
  · intro hlt
    have hb : ¬(i ≥ N) := by omega
    refine ⟨?_, ?_, ?_, ?_, ?_⟩ <;>
      simp [strong_alias_array, throw_if_out_of_bounds, hb, ptr_add_ref,
        use_count, updateBlock_same, addStrong]
    intro j hj
    rw [updateBlock_ne w parent.ctrl j _ hj]
  · intro hge
    have hb : i ≥ N := hge
    simp [strong_alias_array, throw_if_out_of_bounds, hb]

/-- Witness for the C4 theorem: index 2 of a 4-element array succeeds and
index 7 fails with the attempted index and the capacity. -/
theorem strong_alias_array_spec_witness :
    (strong_alias_array ⟨0, 100⟩ 10 4 2 lockWorld).fst = .ok ⟨0, 12⟩ ∧
    use_count ⟨0, 100⟩ ((strong_alias_array ⟨0, 100⟩ 10 4 2 lockWorld).snd)
      = use_count ⟨0, 100⟩ lockWorld + 1 ∧
    strong_alias_array ⟨0, 100⟩ 10 4 7 lockWorld
      = (.error ⟨7, 4⟩, lockWorld) := by
  have h := (strong_alias_array_spec ⟨0, 100⟩ 10 4 2 lockWorld).1 (by decide)
  exact ⟨h.1, h.2.2.1,
    (strong_alias_array_spec ⟨0, 100⟩ 10 4 7 lockWorld).2 (by decide)⟩

/-- Claim C5: on a disengaged `optional_ptr` (both raw words null), `value()`,
`operator*` and `operator->` all raise `bad_optional_ptr_access` and return
the heap exactly as given — the engagement check precedes any dereference or
`strong_ptr` copy, so no reference count moves. -/
theorem optional_disengaged_access_spec (o : OptionalPtr) (w : World)
    (hd : is_engaged o = false) :
    optional_value o w = (.error ⟨⟩, w) ∧
    optional_arrow o w = (.error ⟨⟩, w) ∧
    optional_star o w = (.error ⟨⟩, w) := by
  refine ⟨?_, ?_, ?_⟩ <;>
    simp [optional_value, optional_arrow, optional_star, hd]

/-- Witness for the C5 theorem: the empty optional on a concrete heap. -/
theorem optional_disengaged_access_spec_witness :
    is_engaged ⟨none, none⟩ = false ∧
    optional_value ⟨none, none⟩ lockWorld = (.error ⟨⟩, lockWorld) ∧
    optional_arrow ⟨none, none⟩ lockWorld = (.error ⟨⟩, lockWorld) ∧
    optional_star ⟨none, none⟩ lockWorld = (.error ⟨⟩, lockWorld) := by
  have h := optional_disengaged_access_spec ⟨none, none⟩ lockWorld (by decide)
  exact ⟨by decide, h.1, h.2.1, h.2.2⟩

/-- A concrete heap whose (replicated) control block carries two strong
owners and no weak reference. -/
def moveWorld : World := fun _ =>
  { allocator := 1, strong_count := 2, weak_count := 0,
    destroyed := 0, deallocs := [], rcSize := 32 }

/-- Claim C6 counterexample: move-assigning between two distinct strong_ptrs
that share one control block (strong count 2) leaves that count at 2, not 3 —
the release of the destination's previous reference cancels the increment, so
"the strong count of the target control block is incremented by one" fails at
this input. -/
theorem strong_move_assign_same_block_cex :
    ((strong_move_assign ⟨0, 10⟩ ⟨0, 11⟩ moveWorld).snd.snd 0).strong_count
      ≠ (moveWorld 0).strong_count + 1 := by
  decide

/-- Claim C6 (amended): move construction and move assignment of `strong_ptr`
are exact copies — the moved-from pointer keeps its control block and object
address and is never nulled.  Move construction raises the source block's
strong count by one (every other block untouched).  Move assignment, like copy
assignment, first releases the destination's previous reference and then
increments the source's block, so its count rises by one net only when the two
referenced control blocks differ. -/
theorem strong_move_is_copy_spec (src dst other : StrongPtr) (w : World) :
    strong_move_ctor src w = strong_copy_ctor src w ∧
    (strong_move_ctor src w).snd.fst = src ∧
    ((strong_move_ctor src w).snd.snd src.ctrl).strong_count
      = (w src.ctrl).strong_count + 1 ∧
    (∀ j, j ≠ src.ctrl → (strong_move_ctor src w).snd.snd j = w j) ∧
    strong_move_assign dst other w = strong_copy_assign dst other w ∧
    (strong_move_assign dst other w).fst = ⟨other.ctrl, other.addr⟩ ∧
    (strong_move_assign dst other w).snd.fst = other ∧
    (dst.ctrl ≠ other.ctrl →
      ((strong_move_assign dst other w).snd.snd other.ctrl).strong_count
        = (w other.ctrl).strong_count + 1) := by
  refine ⟨rfl, rfl, ?_, ?_, rfl, rfl, rfl, ?_⟩
  · simp [strong_move_ctor, ptr_add_ref, updateBlock_same, addStrong]
  · intro j hj
    simp only [strong_move_ctor, ptr_add_ref]
    rw [updateBlock_ne w src.ctrl j _ hj]
  · intro hne
    simp only [strong_move_assign, ptr_add_ref, ptr_release]
    rw [updateBlock_same]
    rw [updateBlock_ne w dst.ctrl other.ctrl _ (Ne.symm hne)]
    rfl

/-- Witness for the amended C6 theorem: distinct control blocks 0 and 1. -/
theorem strong_move_is_copy_spec_witness :
    strong_move_ctor ⟨0, 10⟩ moveWorld = strong_copy_ctor ⟨0, 10⟩ moveWorld ∧
    ((strong_move_assign ⟨0, 10⟩ ⟨1, 20⟩ moveWorld).snd.snd 1).strong_count
      = (moveWorld 1).strong_count + 1 := by
  have h := strong_move_is_copy_spec ⟨0, 10⟩ ⟨0, 10⟩ ⟨1, 20⟩ moveWorld
  exact ⟨h.1, h.2.2.2.2.2.2.2 (by decide)⟩

/-- Claim C7: `optional_ptr` equality holds iff both sides are disengaged or
both are engaged with the same object-pointer word; the null sentinel, on
either side, compares equal to exactly the disengaged optionals; and every
inequality operator is the pointwise negation of the matching equality
operator. -/
theorem optional_eq_spec (a b : OptionalPtr) :
    (optional_eq a b = true ↔
      ((has_value a = false ∧ has_value b = false) ∨
       (has_value a = true ∧ has_value b = true ∧ a.raw_addr = b.raw_addr))) ∧
    (optional_eq_null a = !has_value a) ∧
    (null_eq_optional a = !has_value a) ∧
    (optional_ne a b = !(optional_eq a b)) ∧
    (optional_ne_null a = !(optional_eq_null a)) ∧
    (null_ne_optional a = !(null_eq_optional a)) := by
  refine ⟨?_, rfl, rfl, rfl, ?_, ?_⟩
  · by_cases ha : has_value a <;> by_cases hb : has_value b <;>
      simp [optional_eq, ha, hb]
  · simp [optional_ne_null, optional_eq_null]
  · simp [null_ne_optional, null_eq_optional]

/-- Claim C8: constructing a weak_ptr from a strong_ptr copies its two fields
and bumps only `weak_count` — `use_count()` (the strong count) is unchanged on
every block; and any weak_ptr with no control block, or whose block's strong
count is zero, reports `expired() = true` while `lock()` yields a disengaged
optional and an untouched heap. -/
theorem weak_from_strong_spec (s : StrongPtr) (wk : WeakPtr) (w : World) :
    ((weak_from_strong s w).fst = ⟨some s.ctrl, some s.addr⟩ ∧
     ((weak_from_strong s w).snd s.ctrl).weak_count
       = (w s.ctrl).weak_count + 1 ∧
     (∀ j, ((weak_from_strong s w).snd j).strong_count
       = (w j).strong_count) ∧
     (∀ j, j ≠ s.ctrl → (weak_from_strong s w).snd j = w j)) ∧
    ((wk.ctrl.elim True fun i => (w i).strong_count = 0) →
      expired wk w = true ∧ lock wk w = (none, w)) := by
  constructor
  · refine ⟨rfl, ?_, ?_, ?_⟩
    · simp [weak_from_strong, ptr_add_weak, updateBlock_same, addWeak]
    · intro j
      by_cases hj : j = s.ctrl
      · subst hj
        simp [weak_from_strong, ptr_add_weak, updateBlock_same, addWeak]
      · simp only [weak_from_strong, ptr_add_weak]
        rw [updateBlock_ne w s.ctrl j _ hj]
    · intro j hj
      simp only [weak_from_strong, ptr_add_weak]
      rw [updateBlock_ne w s.ctrl j _ hj]
  · intro hcond
    cases hctrl : wk.ctrl with
    | none => simp [expired, lock, hctrl]
    | some i =>
      rw [hctrl] at hcond
      have h0 : (w i).strong_count = 0 := hcond
      simp [expired, lock, hctrl, h0]

/-- Witness for the C8 theorem: a fresh weak reference on a live block, and an
empty weak_ptr that is expired and fails to lock. -/
theorem weak_from_strong_spec_witness :
    ((weak_from_strong ⟨0, 4⟩ lockWorld).snd 0).weak_count
      = (lockWorld 0).weak_count + 1 ∧
    ((weak_from_strong ⟨0, 4⟩ lockWorld).snd 0).strong_count
      = (lockWorld 0).strong_count ∧
    expired ⟨none, none⟩ lockWorld = true ∧
    lock ⟨none, none⟩ lockWorld = (none, lockWorld) := by
  have h1 := (weak_from_strong_spec ⟨0, 4⟩ ⟨none, none⟩ lockWorld).1
  have h2 := (weak_from_strong_spec ⟨0, 4⟩ ⟨none, none⟩ lockWorld).2 trivial
  exact ⟨h1.2.1, h1.2.2.1 0, h2.1, h2.2⟩

/-- A concrete heap whose (replicated) control block carries one strong owner
and two weak references. -/
def weakWorld : World := fun _ =>
  { allocator := 2, strong_count := 1, weak_count := 2,
    destroyed := 0, deallocs := [], rcSize := 8 }

/-- Claim C9 counterexample: move-assigning between two distinct weak_ptrs
that reference the same control block (weak count 2) drops that count to 1 —
the temporary's destructor releases the destination's previous reference, so
"the weak_count of the control block is unchanged by the move" fails at this
input. -/
theorem weak_move_assign_weak_count_cex :
    (((weak_move_assign ⟨some 0, some 5⟩ ⟨some 0, some 5⟩ weakWorld).snd.snd)
        0).weak_count
      ≠ (weakWorld 0).weak_count := by
  decide

/-- Claim C9 (amended): weak_ptr moves genuinely transfer the reference.
Move construction hands the destination the source's old fields, empties the
source and touches no counter.  An empty weak_ptr is expired, has
`use_count() = 0`, and its destructor performs no weak-count decrement.  Move
assignment gives the destination the source's old fields and empties the
source; its only heap effect is releasing the destination's previous weak
reference — none at all when the destination was empty. -/
theorem weak_move_spec (src dst other : WeakPtr) (w : World) :
    weak_move_ctor src w = (⟨src.ctrl, src.addr⟩, ⟨none, none⟩, w) ∧
    expired ⟨none, none⟩ w = true ∧
    weak_use_count ⟨none, none⟩ w = 0 ∧
    weak_dtor ⟨none, none⟩ w = w ∧
    weak_move_assign dst other w
      = (⟨other.ctrl, other.addr⟩, ⟨none, none⟩, weak_dtor dst w) ∧
    (dst.ctrl = none → (weak_move_assign dst other w).snd.snd = w) := by
  refine ⟨rfl, rfl, rfl, rfl, rfl, ?_⟩
  intro hc
  simp [weak_move_assign, weak_dtor, hc]

/-- Witness for the amended C9 theorem at a concrete heap. -/
theorem weak_move_spec_witness :
    weak_move_ctor ⟨some 0, some 5⟩ weakWorld
      = (⟨some 0, some 5⟩, ⟨none, none⟩, weakWorld) ∧
    (weak_move_assign ⟨none, none⟩ ⟨some 0, some 5⟩ weakWorld).snd.snd
      = weakWorld := by
  have h := weak_move_spec ⟨some 0, some 5⟩ ⟨none, none⟩ ⟨some 0, some 5⟩
    weakWorld
  exact ⟨h.1, h.2.2.2.2.2 rfl⟩

/-- Claim C10 (under the state-consistency side condition that each engaged
optional's control block really carries its strong reference, count ≥ 1):
`swap` exchanges the two optionals' contents in all four engagement
combinations and returns the heap exactly as it was — every increment
performed by the internal move/placement steps is cancelled by the paired
release, on the same block or across two blocks alike. -/
theorem optional_swap_spec (a b : OptionalPtr) (w : World)
    (ha : is_engaged a = true → 1 ≤ (w (contained a).ctrl).strong_count)
    (hb : is_engaged b = true → 1 ≤ (w (contained b).ctrl).strong_count) :
    optional_swap a b w = (b, a, w) := by
  by_cases hea : is_engaged a <;> by_cases heb : is_engaged b
  · have ha0 : (w (contained a).ctrl).strong_count ≠ 0 := by
      have := ha hea; omega
    have hb0 : (w (contained b).ctrl).strong_count ≠ 0 := by
      have := hb heb; omega
    simp only [optional_swap, hea, heb, Bool.and_self, if_true,
      Bool.not_true, Bool.and_false]
    rw [release_add_cancel _ _ ha0, release_add_cancel _ _ hb0,
      release_add_cancel _ _ ha0]
  · have ha0 : (w (contained a).ctrl).strong_count ≠ 0 := by
      have := ha hea; omega
    have hbe : b = ⟨none, none⟩ := disengaged_eq b (by simpa using heb)
    subst hbe
    simp only [optional_swap, hea, is_engaged, Option.isSome_none,
      Bool.or_self, Bool.and_false, Bool.false_eq_true, if_false,
      Bool.not_false, Bool.and_true, if_true]
    rw [release_add_cancel _ _ ha0]
    rw [if_pos (by simpa [is_engaged] using hea)]
  · have hb0 : (w (contained b).ctrl).strong_count ≠ 0 := by
      have := hb heb; omega
    have hae : a = ⟨none, none⟩ := disengaged_eq a (by simpa using hea)
    subst hae
    simp only [optional_swap, heb, is_engaged, Option.isSome_none,
      Bool.or_self, Bool.false_and, Bool.false_eq_true, if_false,
      Bool.not_false, Bool.true_and, if_true]
    rw [release_add_cancel _ _ hb0]
    rw [if_pos (by simpa [is_engaged] using heb)]
  · have hae : a = ⟨none, none⟩ := disengaged_eq a (by simpa using hea)
    have hbe : b = ⟨none, none⟩ := disengaged_eq b (by simpa using heb)
    subst hae
    subst hbe
    simp [optional_swap, is_engaged]

/-- Witness for the C10 theorem: an engaged and a disengaged optional on a
live block. -/
theorem optional_swap_spec_witness :
    optional_swap ⟨some 0, some 10⟩ ⟨none, none⟩ moveWorld
      = (⟨none, none⟩, ⟨some 0, some 10⟩, moveWorld) :=
  optional_swap_spec ⟨some 0, some 10⟩ ⟨none, none⟩ moveWorld
    (by intro _; decide) (by intro h; cases h)

end StrongPtrModel
